import Mathlib

/-
Verification of the listener/credential negotiation protocol of charms.wand.

This file gives a shallow embedding, in Lean 4, of the protocol components of
the repository:

  * wand/apps/relations/kafka_relation_base.py  (KafkaRelationBase)
  * wand/apps/relations/kafka_listener.py       (KafkaListenerProvidesRelation,
                                                 KafkaListenerRequiresRelation)
  * wand/apps/relations/zookeeper.py            (ZookeeperRelation,
                                                 ZookeeperProvidesRelation)

Modelling conventions, used throughout:

  * Relation data is, on the wire, a flat string-to-string map per unit.  The
    values that this code writes under the keys "request" and "bootstrap-data"
    are JSON serialisations of Python dicts; the embedding stores the
    structured dictionary a value encodes, and renders it with the explicit
    serialiser (dumpsReq / dumpListeners below) wherever the source code
    compares or writes the serialised string.
  * Python dicts with a fixed key schema are embedded as structures whose
    fields are Option-valued when the source may omit the key; a d[k] access
    on a missing key is a KeyError, d.get(k, v) is Option.getD.
  * Side effects (relation-data writes, trust-store creation) are returned
    explicitly as values (lists of BusWrite, Option TruststoreCall).
  * Exceptions are Except results; PyErr collects the exception types that the
    modelled code can raise.
-/

/-- Replace with fuel: one step consumes at least one character of the source,
so fuel `src.length` suffices.  Mirrors Python str.replace (left-to-right,
non-overlapping). -/
def replaceChars : Nat → List Char → List Char → List Char → List Char
  | 0, _, _, _ => []
  | _ + 1, [], _, _ => []
  | n + 1, c :: rest, pat, repl =>
    if pat ≠ [] ∧ pat.isPrefixOf (c :: rest) then
      repl ++ replaceChars n ((c :: rest).drop pat.length) pat repl
    else
      c :: replaceChars n rest pat repl

/-- Python `s.replace(pat, repl)`. -/
def strReplace (s pat repl : String) : String :=
  ⟨replaceChars (s.data.length + 1) s.data pat.data repl.data⟩

/-- Containment of `pat` as a contiguous sublist of `hay`. -/
def listContainsSub (hay pat : List Char) : Bool :=
  pat.isPrefixOf hay ||
    match hay with
    | [] => false
    | _ :: t => listContainsSub t pat

/-- Python `needle in hay` on strings (substring containment). -/
def strIn (needle hay : String) : Bool :=
  listContainsSub hay.data needle.data

/-- Join a list of strings with a separator, Python str.join. -/
def joinSep (sep : String) : List String → String
  | [] => ""
  | [x] => x
  | x :: y :: xs => x ++ sep ++ joinSep sep (y :: xs)

/-- Split with fuel, auxiliary for strSplit. `cur` is the reversed chunk
being accumulated. -/
def splitChars : Nat → List Char → List Char → List Char → List (List Char)
  | 0, _, _, cur => [cur.reverse]
  | _ + 1, [], _, cur => [cur.reverse]
  | n + 1, c :: rest, pat, cur =>
    if pat ≠ [] ∧ pat.isPrefixOf (c :: rest) then
      cur.reverse :: splitChars n ((c :: rest).drop pat.length) pat []
    else
      splitChars n rest pat (c :: cur)

/-- Python `s.split(sep)` for a non-empty separator. -/
def strSplit (s sep : String) : List String :=
  (splitChars (s.data.length + 1) s.data sep.data []).map (fun l => ⟨l⟩)

/-- JSON string escaping (quotes and backslashes; the payloads handled by the
protocol contain no other characters needing escapes). -/
def escapeChars : List Char → List Char
  | [] => []
  | c :: rest =>
    if c = '"' then '\\' :: '"' :: escapeChars rest
    else if c = '\\' then '\\' :: '\\' :: escapeChars rest
    else c :: escapeChars rest

/-- Render a JSON string literal. -/
def jstr (s : String) : String :=
  "\"" ++ (⟨escapeChars s.data⟩ : String) ++ "\""

/-- Render a JSON boolean the way Python json.dumps does. -/
def jbool (b : Bool) : String :=
  if b then "true" else "false"

/-- Python json.dumps of a string-to-string dict with default separators. -/
def dumpStrDict (l : List (String × String)) : String :=
  "\x7b" ++ joinSep ", " (l.map (fun kv => jstr kv.1 ++ ": " ++ jstr kv.2)) ++ "\x7d"

/-- A juju unit as seen through the ops framework: its name, the name of the
application it belongs to (u.app.name) and whether it is its application's
leader (u.is_leader()). -/
structure RUnit where
  name : String
  app : String
  isLeader : Bool
deriving DecidableEq, Repr

/-- The SASL sub-object of a listener request: a string-to-string dictionary
(for example the GSSAPI kerberos block). -/
def SaslDict := List (String × String)
deriving DecidableEq, Repr

/-- A listener request dict, the value JSON-encoded under the key "request"
in a requirer unit's relation namespace (wire format of kafka_listener.py).
Every field is optional: the requirer-side setters add keys one at a time, so
any subset of keys can be present; a d[k] access on a missing key raises
KeyError. -/
structure ReqDict where
  is_public : Option Bool := none
  plaintext_pwd : Option String := none
  secprot : Option String := none
  SASL : Option SaslDict := none
  cert : Option String := none
deriving DecidableEq, Repr

/-- The empty request dict: json.loads of the initial state value "\x7b\x7d",
which is falsy in Python. -/
def emptyReq : ReqDict := {}

/-- json.dumps of a request dict.  Canonical key order (the wire order of
section 6 of the protocol documentation); Python preserves insertion order
instead, but every string comparison the source performs is between dumps of
dicts built by the same code path, so a canonical order preserves all
compared equalities. -/
def dumpsReq (r : ReqDict) : String :=
  let fields :=
    (match r.is_public with
     | some b => [jstr "is_public" ++ ": " ++ jbool b]
     | none => []) ++
    (match r.plaintext_pwd with
     | some s => [jstr "plaintext_pwd" ++ ": " ++ jstr s]
     | none => []) ++
    (match r.secprot with
     | some s => [jstr "secprot" ++ ": " ++ jstr s]
     | none => []) ++
    (match r.SASL with
     | some l => [jstr "SASL" ++ ": " ++ dumpStrDict l]
     | none => []) ++
    (match r.cert with
     | some s => [jstr "cert" ++ ": " ++ jstr s]
     | none => [])
  "\x7b" ++ joinSep ", " fields ++ "\x7d"

/-- One entry of a listener allocation map (kafka_listener.py).  Fields that
only some construction sites set are Option-valued; a deleted key is none.
ts_pwd and ks_pwd are Option so that the del statements of
set_bootstrap_data's stripping loop can be expressed. -/
structure ListenerEntry where
  bootstrap_server : Option String := none
  endpoint : String
  advertise : String
  is_public : Option Bool := none
  plaintext_pwd : String
  cert_present : Bool
  sasl_present : Bool
  secprot : String
  SASL : SaslDict
  cert : Option String := none
  ts_path : String
  ts_pwd : Option String
  ks_path : String
  ks_pwd : Option String
  clientauth : Option Bool := none
deriving DecidableEq, Repr

/-- A listener allocation map: listener name to entry, in insertion order
(Python dict semantics). -/
def ListenerMap := List (String × ListenerEntry)
deriving DecidableEq, Repr

/-- Python dict assignment d[k] = v: replaces in place if the key exists
(keeping its position), appends otherwise. -/
def dictInsert : List (String × ListenerEntry) → String → ListenerEntry →
    List (String × ListenerEntry)
  | [], k, v => [(k, v)]
  | (k', v') :: rest, k, v =>
    if k' = k then (k, v) :: rest else (k', v') :: dictInsert rest k v

/-- Python dict lookup d.get(k). -/
def dictGet : List (String × ListenerEntry) → String → Option ListenerEntry
  | [], _ => none
  | (k', v') :: rest, k => if k' = k then some v' else dictGet rest k

/-- json.dumps of a listener entry.  Canonical key order covering the union of
the keys the source construction sites write; only present keys are
rendered. -/
def dumpEntry (e : ListenerEntry) : String :=
  let fields :=
    (match e.bootstrap_server with
     | some s => [jstr "bootstrap_server" ++ ": " ++ jstr s]
     | none => []) ++
    [jstr "endpoint" ++ ": " ++ jstr e.endpoint,
     jstr "advertise" ++ ": " ++ jstr e.advertise] ++
    (match e.is_public with
     | some b => [jstr "is_public" ++ ": " ++ jbool b]
     | none => []) ++
    [jstr "plaintext_pwd" ++ ": " ++ jstr e.plaintext_pwd,
     jstr "cert_present" ++ ": " ++ jbool e.cert_present,
     jstr "sasl_present" ++ ": " ++ jbool e.sasl_present,
     jstr "secprot" ++ ": " ++ jstr e.secprot,
     jstr "SASL" ++ ": " ++ dumpStrDict e.SASL] ++
    (match e.cert with
     | some s => [jstr "cert" ++ ": " ++ jstr s]
     | none => []) ++
    [jstr "ts_path" ++ ": " ++ jstr e.ts_path] ++
    (match e.ts_pwd with
     | some s => [jstr "ts_pwd" ++ ": " ++ jstr s]
     | none => []) ++
    [jstr "ks_path" ++ ": " ++ jstr e.ks_path] ++
    (match e.ks_pwd with
     | some s => [jstr "ks_pwd" ++ ": " ++ jstr s]
     | none => []) ++
    (match e.clientauth with
     | some b => [jstr "clientauth" ++ ": " ++ jbool b]
     | none => [])
  "\x7b" ++ joinSep ", " fields ++ "\x7d"

/-- json.dumps of a listener allocation map. -/
def dumpListeners (m : ListenerMap) : String :=
  "\x7b" ++ joinSep ", " (m.map (fun kv => jstr kv.1 ++ ": " ++ dumpEntry kv.2)) ++ "\x7d"

/-- The relation-data namespace of one participant, restricted to the keys the
modelled code reads or writes.  "request" and "bootstrap-data" hold JSON
serialisations on the wire and are stored structurally (see the header).
"bootstrap-server" is a key the requirer looks for but that nothing in this
code base ever writes. -/
structure UnitData where
  request : Option ReqDict := none
  tls_cert : Option String := none
  mtls_cert : Option String := none
  bootstrap_data : Option ListenerMap := none
  bootstrap_server : Option String := none
  endpoint : Option String := none
  clientauth : Option String := none
deriving DecidableEq, Repr

/-- A unit namespace with no keys set. -/
def emptyUnitData : UnitData := {}

/-- A relation instance: identity, the remote units in iteration order, and
each participant's namespace (r.data). -/
structure Relation where
  rid : String
  units : List RUnit
  data : List (RUnit × UnitData)
deriving DecidableEq, Repr

/-- r.data[u]: a participant of the relation always has a (possibly empty)
namespace. -/
def rdata (r : Relation) (u : RUnit) : UnitData :=
  (List.lookup u r.data).getD emptyUnitData

/-- KafkaRelationBase.all_units: the remote units plus this unit.  The source
adds self to a copy of the unit set; the embedding appends it at the end of
the iteration order. -/
def all_units (selfU : RUnit) (r : Relation) : List RUnit :=
  r.units ++ [selfU]

/-- A write of one key in this unit's namespace of one relation (the only bus
effect the modelled code performs). -/
structure BusWrite where
  rid : String
  unit : String
  key : String
  value : String
deriving DecidableEq, Repr

/-- One invocation of the CreateTruststore collaborator
(wand.security.ssl), with the arguments the modelled code passes. -/
structure TruststoreCall where
  ts_path : String
  ts_pwd : String
  certs : List String
  ts_regenerate : Bool
  user : String
  group : String
  mode : Nat
deriving DecidableEq, Repr

/-- The exception types raised by the modelled code. -/
inductive PyErr where
  | keyError (key : String)
  | typeError (msg : String)
  | attributeError (attr : String)
  | listenerNotSetError
  | emptyListenerDictError
  | relationNotUsedError
  | tlsNotSetError
  | mtlsNotSetError
deriving DecidableEq, Repr

/-- The StoredState fields of KafkaRelationBase:
trusted_certs, ts_path, ts_pwd, user, group, mode. -/
structure BaseState where
  trusted_certs : String := ""
  ts_path : String := ""
  ts_pwd : String := ""
  user : String := ""
  group : String := ""
  mode : Nat := 0
deriving DecidableEq, Repr

/-- A placeholder relation, only used as the getD default of headD below. -/
def blankRelation : Relation := { rid := "", units := [], data := [] }

/-- KafkaRelationBase's self.relation: the single relation of this name,
bound in __init__ via self._relation = model.get_relation(relation_name);
embedded as the head of the relation list. -/
def primaryRelation (rels : List Relation) : Relation :=
  rels.headD blankRelation

/-- Python truthiness of r.data[u].get("tls_cert", None): None and the empty
string are falsy. -/
def tlsTruthy (o : Option String) : Bool :=
  match o with
  | some s => s ≠ ""
  | none => false

/-- The relation scan of KafkaRelationBase.is_TLS_enabled, lines 112-121: for
each relation, for each participant (peers then self), at the first truthy
tls_cert check whether this unit has also published one in the primary
relation; raise KafkaRelationBaseTLSNotSetError if not, return True if so.
If no participant has published, return False. -/
def tlsScan (selfU : RUnit) (primary : Relation) : List Relation → Except PyErr Bool
  | [] => .ok false
  | r :: rest =>
    if (all_units selfU r).any (fun u => tlsTruthy (rdata r u).tls_cert) then
      if tlsTruthy (rdata primary selfU).tls_cert then .ok true
      else .error .tlsNotSetError
    else
      tlsScan selfU primary rest

/-- KafkaRelationBase.is_TLS_enabled, lines 109-121. -/
def is_TLS_enabled (selfU : RUnit) (rels : List Relation) : Except PyErr Bool :=
  if rels.isEmpty then .error .relationNotUsedError
  else tlsScan selfU (primaryRelation rels) rels

/-- KafkaRelationBase._get_all_tls_cert, lines 90-107: if TLS is not enabled
on the relation, do nothing; otherwise collect every published tls_cert of
the primary relation's participants (peers then self), store the ::-joined
list in state.trusted_certs, and rebuild the trust store via
CreateTruststore.  Returns the new state and the CreateTruststore invocation
(none when no trust store is written). -/
def _get_all_tls_cert (selfU : RUnit) (rels : List Relation) (st : BaseState) :
    Except PyErr (BaseState × Option TruststoreCall) := do
  let enabled ← is_TLS_enabled selfU rels
  if !enabled then
    .ok (st, none)
  else
    let primary := primaryRelation rels
    let crt_list := (all_units selfU primary).filterMap (fun u => (rdata primary u).tls_cert)
    let st' := { st with trusted_certs := joinSep "::" crt_list }
    .ok (st', some { ts_path := st'.ts_path, ts_pwd := st'.ts_pwd,
                     certs := strSplit st'.trusted_certs "::",
                     ts_regenerate := true,
                     user := st'.user, group := st'.group, mode := st'.mode })

/-- Write a value under "tls_cert" in this unit's namespace of a relation
(the data visible to the subsequent _get_all_tls_cert pass). -/
def writeTlsCert (r : Relation) (u : RUnit) (c : String) : Relation :=
  { r with data :=
      (r.data.filter (fun p => p.1 ≠ u)) ++ [(u, { rdata r u with tls_cert := some c })] }

/-- KafkaRelationBase.set_TLS_auth, lines 123-136: raise
KafkaRelationBaseNotUsedError when no relation exists; otherwise publish the
certificate chain under tls_cert in this unit's namespace of every relation
(unconditionally -- there is no compare-before-write guard here), update the
stored trust-store path/password, and re-run _get_all_tls_cert on the
updated relation data. -/
def set_TLS_auth (selfU : RUnit) (rels : List Relation) (st : BaseState)
    (cert_chain truststore_path truststore_pwd : String) :
    Except PyErr (BaseState × List BusWrite × Option TruststoreCall) := do
  if rels.isEmpty then
    .error .relationNotUsedError
  else
    let writes := rels.map (fun r => BusWrite.mk r.rid selfU.name "tls_cert" cert_chain)
    let rels' := rels.map (fun r => writeTlsCert r selfU cert_chain)
    let st' := { st with ts_path := truststore_path, ts_pwd := truststore_pwd,
                         trusted_certs := cert_chain }
    let (st'', tsc) ← _get_all_tls_cert selfU rels' st'
    .ok (st'', writes, tsc)

/-- The StoredState fields of KafkaListenerProvidesRelation (available_port is
kept as a string in StoredState and cast to int on read; the embedding keeps
the number), together with the base fields it reads (ts_path, ts_pwd). -/
structure ProviderState where
  available_port : Nat
  internal_pwd : String
  external_pwd : String
  broker_pwd : String
  ts_path : String
  ts_pwd : String
deriving DecidableEq, Repr

/-- The "internal" default listener descriptor
(_get_default_listeners, lines 250-266). -/
def internalListener (port : Nat)
    (internal_pwd ts_path ts_pwd keystore_path keystore_pwd : String) : ListenerEntry :=
  { endpoint := "INTERNAL://*BINDING*:" ++ toString port,
    advertise := "INTERNAL://*BINDING*:" ++ toString port,
    is_public := some false,
    plaintext_pwd := internal_pwd,
    cert_present := true,
    sasl_present := false,
    secprot := "SSL",
    SASL := [],
    cert := some "",
    ts_path := ts_path, ts_pwd := some ts_pwd,
    ks_path := keystore_path, ks_pwd := some keystore_pwd }

/-- The "external" default listener descriptor
(_get_default_listeners, lines 267-283). -/
def externalListener (port : Nat)
    (external_pwd ts_path ts_pwd keystore_path keystore_pwd : String) : ListenerEntry :=
  { endpoint := "EXTERNAL://*ADVERTISE*:" ++ toString (port + 1),
    advertise := "EXTERNAL://*ADVERTISE*:" ++ toString (port + 1),
    is_public := some true,
    plaintext_pwd := external_pwd,
    cert_present := true,
    sasl_present := false,
    secprot := "SSL",
    SASL := [],
    cert := some "",
    ts_path := ts_path, ts_pwd := some ts_pwd,
    ks_path := keystore_path, ks_pwd := some keystore_pwd }

/-- The "broker" default listener descriptor
(_get_default_listeners, lines 284-300). -/
def brokerListener (port : Nat)
    (broker_pwd ts_path ts_pwd keystore_path keystore_pwd : String) : ListenerEntry :=
  { endpoint := "BROKER://*BINDING*:" ++ toString (port + 2),
    advertise := "BROKER://*BINDING*:" ++ toString (port + 2),
    is_public := some false,
    plaintext_pwd := broker_pwd,
    cert_present := true,
    sasl_present := false,
    secprot := "SSL",
    SASL := [],
    cert := some "",
    ts_path := ts_path, ts_pwd := some ts_pwd,
    ks_path := keystore_path, ks_pwd := some keystore_pwd }

/-- KafkaListenerProvidesRelation._get_default_listeners, lines 248-302: the
three default listeners at self.available_port + 0, 1, 2.  The clientauth
parameter is accepted and ignored, as in the source body. -/
def _get_default_listeners (st : ProviderState)
    (keystore_path keystore_pwd : String) (clientauth : Bool) : ListenerMap :=
  let _ := clientauth
  [("internal", internalListener st.available_port
      st.internal_pwd st.ts_path st.ts_pwd keystore_path keystore_pwd),
   ("external", externalListener st.available_port
      st.external_pwd st.ts_path st.ts_pwd keystore_path keystore_pwd),
   ("broker", brokerListener st.available_port
      st.broker_pwd st.ts_path st.ts_pwd keystore_path keystore_pwd)]

/-- A d[k] access on a Python dict: KeyError when the key is absent. -/
def keyGet {α : Type} (o : Option α) (k : String) : Except PyErr α :=
  match o with
  | some v => .ok v
  | none => .error (.keyError k)

/-- The requester-derived listener entry built by get_unit_listener,
lines 356-374 (key insertion order of the source; the embedding's structure
holds the same fields). -/
def requesterListener (listener_name addr : String) (port : Nat)
    (secprot : String) (sasl : SaslDict) (plaintext_pwd cert : String)
    (ts_path ts_pwd keystore_path keystore_pwd : String) (clientauth : Bool) :
    ListenerEntry :=
  { bootstrap_server := some (addr ++ ":" ++ toString port),
    endpoint := listener_name ++ "://" ++ addr ++ ":" ++ toString port,
    advertise := listener_name ++ "://" ++ addr ++ ":" ++ toString port,
    secprot := secprot,
    SASL := sasl,
    plaintext_pwd := plaintext_pwd,
    cert_present := cert.length > 0,
    sasl_present := strIn "SASL" secprot,
    ts_path := ts_path, ts_pwd := some ts_pwd,
    ks_path := keystore_path, ks_pwd := some keystore_pwd,
    clientauth := some clientauth }

/-- The body of get_unit_listener's inner loop for one remote unit,
lines 332-374: only the remote leader's published request is processed; an
absent "request" key or an empty request dict is skipped; otherwise the port
counter advances by one and the listener entry is assigned under the
application-derived name. -/
def allocUnit (keystore_path keystore_pwd : String) (clientauth : Bool)
    (ts_path ts_pwd : String) (r : Relation) (u : RUnit)
    (acc : Nat × ListenerMap) : Except PyErr (Nat × ListenerMap) :=
  if !u.isLeader then .ok acc
  else
    match (rdata r u).request with
    | none => .ok acc
    | some req =>
      if req = emptyReq then .ok acc
      else do
        let port := acc.1 + 1
        let listener_name := strReplace u.app "-" "_"
        let addr := if req.is_public.getD false then "*ADVERTISE*" else "*BINDING*"
        let secprot ← keyGet req.secprot "secprot"
        let sasl ← keyGet req.SASL "SASL"
        let plaintext_pwd ← keyGet req.plaintext_pwd "plaintext_pwd"
        let cert ← keyGet req.cert "cert"
        .ok (port, dictInsert acc.2 listener_name
          (requesterListener listener_name addr port secprot sasl plaintext_pwd
            cert ts_path ts_pwd keystore_path keystore_pwd clientauth))

/-- The unit loop of get_unit_listener (for u in r.units). -/
def allocUnits (keystore_path keystore_pwd : String) (clientauth : Bool)
    (ts_path ts_pwd : String) (r : Relation) :
    List RUnit → Nat × ListenerMap → Except PyErr (Nat × ListenerMap)
  | [], acc => .ok acc
  | u :: us, acc => do
    let acc' ← allocUnit keystore_path keystore_pwd clientauth ts_path ts_pwd r u acc
    allocUnits keystore_path keystore_pwd clientauth ts_path ts_pwd r us acc'

/-- The relation loop of get_unit_listener (for r in self.relations). -/
def allocRels (keystore_path keystore_pwd : String) (clientauth : Bool)
    (ts_path ts_pwd : String) :
    List Relation → Nat × ListenerMap → Except PyErr (Nat × ListenerMap)
  | [], acc => .ok acc
  | r :: rs, acc => do
    let acc' ← allocUnits keystore_path keystore_pwd clientauth ts_path ts_pwd r r.units acc
    allocRels keystore_path keystore_pwd clientauth ts_path ts_pwd rs acc'

/-- The value get_unit_listener returns: the early branches return a raw
Python dict, the main branch returns json.dumps of the final dict (the wire
string of an rjson value is dumpListeners of its map). -/
inductive UListResult where
  | rdict (m : ListenerMap)
  | rjson (m : ListenerMap)
deriving DecidableEq, Repr

/-- The allocation map carried by either return shape. -/
def UListResult.toMap : UListResult → ListenerMap
  | rdict m => m
  | rjson m => m

/-- KafkaListenerProvidesRelation.get_unit_listener, lines 309-376.  The port
counter is reset to the base port (the _port construction parameter) first;
non-leaders return the empty dict; with no relations the default dict (or the
empty dict) is returned; otherwise the counter unconditionally advances by 3
(line 330, whether or not defaults were built) and each processed request
pre-increments it.  Returns the result together with the mutated StoredState
(on an exception the embedding discards the partially advanced counter, which
the next run resets anyway). -/
def get_unit_listener (selfU : RUnit) (rels : List Relation) (basePort : Nat)
    (st : ProviderState) (keystore_path keystore_pwd : String)
    (get_default clientauth : Bool) : Except PyErr (UListResult × ProviderState) :=
  let st := { st with available_port := basePort }
  if !selfU.isLeader then .ok (.rdict [], st)
  else if rels.isEmpty then
    .ok (.rdict (if get_default then
          _get_default_listeners st keystore_path keystore_pwd clientauth
        else []), st)
  else
    let listeners := if get_default then
        _get_default_listeners st keystore_path keystore_pwd clientauth
      else []
    let port0 := st.available_port + 3
    (allocRels keystore_path keystore_pwd clientauth st.ts_path st.ts_pwd
        rels (port0, listeners)).map
      (fun acc => (.rjson acc.2, { st with available_port := acc.1 }))

/-- Both placeholder substitutions of _convert_listener_template,
lines 388-391: all occurrences of *BINDING* first, then of *ADVERTISE*.  In
the source they run over the serialised JSON text; the embedding applies them
to every string of the structure. -/
def convSub (bindH advH : String) (s : String) : String :=
  strReplace (strReplace s "*BINDING*" bindH) "*ADVERTISE*" advH

/-- Placeholder substitution on one listener entry. -/
def convertEntry (bindH advH : String) (e : ListenerEntry) : ListenerEntry :=
  { bootstrap_server := e.bootstrap_server.map (convSub bindH advH),
    endpoint := convSub bindH advH e.endpoint,
    advertise := convSub bindH advH e.advertise,
    is_public := e.is_public,
    plaintext_pwd := convSub bindH advH e.plaintext_pwd,
    cert_present := e.cert_present,
    sasl_present := e.sasl_present,
    secprot := convSub bindH advH e.secprot,
    SASL := e.SASL.map (fun kv => (convSub bindH advH kv.1, convSub bindH advH kv.2)),
    cert := e.cert.map (convSub bindH advH),
    ts_path := convSub bindH advH e.ts_path,
    ts_pwd := e.ts_pwd.map (convSub bindH advH),
    ks_path := convSub bindH advH e.ks_path,
    ks_pwd := e.ks_pwd.map (convSub bindH advH),
    clientauth := e.clientauth }

/-- KafkaListenerProvidesRelation._convert_listener_template, lines 385-393,
on a non-empty template (the caller has already raised on empty input):
replace *BINDING* with the binding hostname and *ADVERTISE* with the
advertise hostname, then parse back. -/
def _convert_listener_template (bindH advH : String) (m : ListenerMap) : ListenerMap :=
  m.map (fun kv => (convSub bindH advH kv.1, convertEntry bindH advH kv.2))

/-- The per-entry copy built by the stripping loop of set_bootstrap_data,
lines 493-499: a deep copy with ts_pwd and ks_pwd deleted. -/
def strippedEntryCopy (e : ListenerEntry) : ListenerEntry :=
  { e with ts_pwd := none, ks_pwd := none }

/-- KafkaListenerProvidesRelation.set_bootstrap_data, lines 484-503.  The lst
argument is the JSON template string; the embedding passes the map it
encodes, with none standing for a None or empty-string argument (which raises
KafkaListenerRelationEmptyListenerDictError).  With no relations nothing is
written.  Otherwise, per relation: the template is converted, the stripping
loop builds per-key copies without ts_pwd/ks_pwd into a loop-local variable
that is never used again, and the UNstripped dict is serialised and written
under "bootstrap-data" unless it is byte-identical to the value currently
stored there. -/
def set_bootstrap_data (selfU : RUnit) (rels : List Relation)
    (bindH advH : String) (lst : Option ListenerMap) :
    Except PyErr (List BusWrite) :=
  match lst with
  | none => .error .emptyListenerDictError
  | some m =>
    if rels.isEmpty then .ok []
    else
      .ok (rels.filterMap (fun r =>
        let listener := _convert_listener_template bindH advH m
        let _dead := listener.map (fun kv => (kv.1, strippedEntryCopy kv.2))
        let j := dumpListeners listener
        if j = ((rdata r selfU).bootstrap_data.map dumpListeners).getD "" then
          none
        else
          some (BusWrite.mk r.rid selfU.name "bootstrap-data" j)))

/-- The StoredState of KafkaListenerRequiresRelation: the base fields, the
is_public default and the request (stored as a JSON string, represented by
the dict it encodes; the initial value "\x7b\x7d" is the empty dict). -/
structure ReqState where
  base : BaseState := {}
  is_public : Bool := false
  request : ReqDict := {}
deriving DecidableEq, Repr

/-- KafkaListenerRequiresRelation._set_request, lines 577-581: with no
relations do nothing, otherwise write the stored request string under
"request" in this unit's namespace of every relation. -/
def _set_request (selfU : RUnit) (rels : List Relation) (st : ReqState) :
    List BusWrite :=
  if rels.isEmpty then []
  else rels.map (fun r => BusWrite.mk r.rid selfU.name "request" (dumpsReq st.request))

/-- KafkaListenerRequiresRelation.set_request, lines 567-575: serialise the
request and return without any write when the result equals the stored
request string; otherwise store it and publish via _set_request. -/
def set_request (selfU : RUnit) (rels : List Relation) (st : ReqState)
    (req : ReqDict) : ReqState × List BusWrite :=
  let j := dumpsReq req
  if j = dumpsReq st.request then (st, [])
  else
    let st' := { st with request := req }
    (st', _set_request selfU rels st')

/-- KafkaListenerRequiresRelation.set_plaintext_pwd, lines 524-534: return if
the key is present with the same value; otherwise set the key, store the
serialised dict into state.request, and call set_request with the same
dict. -/
def set_plaintext_pwd (selfU : RUnit) (rels : List Relation) (st : ReqState)
    (pwd : String) : ReqState × List BusWrite :=
  let req := st.request
  if req.plaintext_pwd = some pwd then (st, [])
  else
    let req' := { req with plaintext_pwd := some pwd }
    let st1 := { st with request := req' }
    set_request selfU rels st1 req'

/-- KafkaListenerRequiresRelation.set_sasl, lines 536-546 (same shape as
set_plaintext_pwd, for the SASL key). -/
def set_sasl (selfU : RUnit) (rels : List Relation) (st : ReqState)
    (sasl : SaslDict) : ReqState × List BusWrite :=
  let req := st.request
  if req.SASL = some sasl then (st, [])
  else
    let req' := { req with SASL := some sasl }
    let st1 := { st with request := req' }
    set_request selfU rels st1 req'

/-- KafkaListenerRequiresRelation.set_is_public, lines 548-558 (same shape,
for the is_public key). -/
def set_is_public (selfU : RUnit) (rels : List Relation) (st : ReqState)
    (is_public : Bool) : ReqState × List BusWrite :=
  let req := st.request
  if req.is_public = some is_public then (st, [])
  else
    let req' := { req with is_public := some is_public }
    let st1 := { st with request := req' }
    set_request selfU rels st1 req'

/-- The unit loop of get_bootstrap_servers, lines 592-601: a unit is
considered only when its namespace has a "bootstrap-server" key; then
"bootstrap-data" is loaded (an absent key is an uncaught KeyError) and the
entry for this application's listener name is read, any KeyError there
becoming KafkaListenerRelationNotSetError. -/
def collectServers (lst_name : String) (r : Relation) :
    List RUnit → Except PyErr (List String)
  | [] => .ok []
  | u :: us => do
    let here ←
      if (rdata r u).bootstrap_server.isSome then
        match (rdata r u).bootstrap_data with
        | none => .error (.keyError "bootstrap-data")
        | some m =>
          match dictGet m lst_name with
          | none => .error .listenerNotSetError
          | some e =>
            match e.bootstrap_server with
            | none => .error .listenerNotSetError
            | some ep => .ok [ep]
      else .ok ([] : List String)
    let rest ← collectServers lst_name r us
    .ok (here ++ rest)

/-- The relation loop of get_bootstrap_servers. -/
def collectServersRels (lst_name : String) :
    List Relation → Except PyErr (List String)
  | [] => .ok []
  | r :: rs => do
    let here ← collectServers lst_name r r.units
    let rest ← collectServersRels lst_name rs
    .ok (here ++ rest)

/-- KafkaListenerRequiresRelation.get_bootstrap_servers, lines 583-602. -/
def get_bootstrap_servers (selfU : RUnit) (rels : List Relation) :
    Except PyErr String :=
  if rels.isEmpty then .error .listenerNotSetError
  else
    (collectServersRels (strReplace selfU.app "-" "_") rels).map
      (fun servers => joinSep "," servers)

/-- The number of positional parameters KafkaRelationBase.set_TLS_auth
declares besides self (cert_chain, truststore_path, truststore_pwd;
kafka_relation_base.py lines 123-126). -/
def baseSetTLSAuthParamCount : Nat := 3

/-- KafkaListenerRequiresRelation.set_TLS_auth, lines 604-615: update the
request's cert field and (possibly) republish it, then call
super().set_TLS_auth with SIX positional arguments (cert_chain,
truststore_path, truststore_pwd, user, group, mode).  CPython checks the
arity against the three declared parameters at the call boundary and raises
TypeError without entering the body.  The result records the state and the
writes performed before the failure, the trust-store invocation (never
reached) and the exception. -/
def requirer_set_TLS_auth (selfU : RUnit) (rels : List Relation) (st : ReqState)
    (cert_chain truststore_path truststore_pwd : String)
    (user group : Option String) (mode : Option Nat) :
    ReqState × List BusWrite × Option TruststoreCall × Option PyErr :=
  let _ := (user, group, mode)
  let req := st.request
  let req' := { req with cert := some cert_chain }
  let swr := set_request selfU rels st req'
  if 6 = baseSetTLSAuthParamCount then
    match set_TLS_auth selfU rels swr.1.base cert_chain truststore_path truststore_pwd with
    | .ok (b', ws2, tsc) => ({ swr.1 with base := b' }, swr.2 ++ ws2, tsc, none)
    | .error e => (swr.1, swr.2, none, some e)
  else
    (swr.1, swr.2, none,
     some (.typeError "set_TLS_auth() takes 4 positional arguments but 7 were given"))

/-- The StoredState of ZookeeperRelation (zookeeper.py): zk_list and the mTLS
fields set in __init__; mtls_cert and trusted_certs are only created by
later assignments, so they are Option-valued (reading them before then is an
AttributeError). -/
structure ZkState where
  zk_list : String := ""
  mtls_trusted_certs : String := ""
  mtls_ts_path : String := ""
  mtls_ts_pwd : String := ""
  mtls_cert : Option String := none
  trusted_certs : Option String := none
deriving DecidableEq, Repr

/-- ZookeeperRelation.is_mTLS_enabled, lines 83-92: at the first peer unit
with a truthy mtls_cert, raise ZookeeperRelationMTLSNotSetError when this
unit has none, else return True; return False when no peer has one. -/
def is_mTLS_enabled (selfU : RUnit) (rel : Relation) : Except PyErr Bool :=
  if rel.units.any (fun u => tlsTruthy (rdata rel u).mtls_cert) then
    if tlsTruthy (rdata rel selfU).mtls_cert then .ok true
    else .error .mtlsNotSetError
  else .ok false

/-- ZookeeperRelation._get_all_mtls_cert, lines 64-73: a no-op unless mTLS is
enabled; otherwise join self's cert with every peer's into trusted_certs and
rebuild the trust store from mtls_trusted_certs split on whitespace (the
source calls CreateTruststore without user/group/mode, whose defaults the
embedding records as empty/zero). -/
def _get_all_mtls_cert (selfU : RUnit) (rel : Relation) (st : ZkState) :
    Except PyErr (ZkState × Option TruststoreCall) := do
  let enabled ← is_mTLS_enabled selfU rel
  if !enabled then .ok (st, none)
  else
    match st.mtls_cert with
    | none => .error (.attributeError "mtls_cert")
    | some c =>
      let joined := c ++ " " ++
        joinSep " " (rel.units.map (fun u => ((rdata rel u).mtls_cert).getD ""))
      let st' := { st with trusted_certs := some joined }
      .ok (st', some { ts_path := st'.mtls_ts_path, ts_pwd := st'.mtls_ts_pwd,
                       certs := (strSplit st'.mtls_trusted_certs " ").filter (fun s => s ≠ ""),
                       ts_regenerate := true, user := "", group := "", mode := 0 })

/-- The endpoint collection loop of ZookeeperRelation
.on_zookeeper_relation_changed, lines 112-117: a direct
data[u]["endpoint"] access (KeyError when absent); falsy endpoints are
skipped. -/
def collectZkEndpoints (rel : Relation) :
    List RUnit → Except PyErr (List String)
  | [] => .ok []
  | u :: us =>
    match (rdata rel u).endpoint with
    | none => .error (.keyError "endpoint")
    | some e => do
      let rest ← collectZkEndpoints rel us
      if e = "" then .ok rest else .ok (e :: rest)

/-- ZookeeperRelation.on_zookeeper_relation_changed, lines 110-119: collect
every unit's endpoint in iteration order, store the comma-joined list in
state.zk_list, then run the mTLS aggregation. -/
def zk_on_zookeeper_relation_changed (selfU : RUnit) (rel : Relation)
    (st : ZkState) : Except PyErr (ZkState × Option TruststoreCall) := do
  let eps ← collectZkEndpoints rel rel.units
  let st' := { st with zk_list := joinSep "," eps }
  _get_all_mtls_cert selfU rel st'

/-- ZookeeperProvidesRelation.on_zookeeper_relation_joined, lines 133-138:
resolve this unit's hostname (the constructor argument if set, otherwise the
hostname of the advertise address) and publish hostname:port under
"endpoint" in this unit's namespace.  Returns the updated relation (so that
a later read sees the write) and the write itself. -/
def zkp_on_zookeeper_relation_joined (selfU : RUnit) (rel : Relation)
    (hostname : Option String) (advertiseHostname : String) (port : Nat) :
    Relation × BusWrite :=
  let h := hostname.getD advertiseHostname
  let ep := h ++ ":" ++ toString port
  ({ rel with data := (rel.data.filter (fun p => p.1 ≠ selfU)) ++
      [(selfU, { rdata rel selfU with endpoint := some ep })] },
   BusWrite.mk rel.rid selfU.name "endpoint" ep)

/-- The attribute names defined on ZookeeperProvidesRelation and its bases in
wand/apps/relations/zookeeper.py (methods and properties of
ZookeeperRelation and ZookeeperProvidesRelation). -/
def zkProvidesAttrs : List String :=
  ["__init__", "_relations", "get_zookeeper_list", "advertise_addr",
   "_get_all_mtls_cert", "is_sasl_enabled", "client_auth_enabled",
   "is_mTLS_enabled", "set_mTLS_auth", "on_zookeeper_relation_joined",
   "on_zookeeper_relation_changed"]

/-- ZookeeperProvidesRelation.on_zookeeper_relation_changed, lines 140-148.
Its first statement is self.on_zookeper_relation_joined(event) -- note the
missing second letter e -- so Python resolves that attribute against the
class hierarchy before anything runs; when it is absent the handler raises
AttributeError.  Had it resolved, the handler would refresh this unit's
endpoint and then run the parent collection. -/
def zkp_on_zookeeper_relation_changed (selfU : RUnit) (rel : Relation)
    (hostname : Option String) (advertiseHostname : String) (port : Nat)
    (st : ZkState) : Except PyErr (ZkState × List BusWrite × Option TruststoreCall) :=
  if zkProvidesAttrs.contains "on_zookeper_relation_joined" then
    let (rel', w) := zkp_on_zookeeper_relation_joined selfU rel hostname
      advertiseHostname port
    (zk_on_zookeeper_relation_changed selfU rel' st).map
      (fun p => (p.1, [w], p.2))
  else
    .error (.attributeError "on_zookeper_relation_joined")

/-- The bus writes of a set_bootstrap_data result (none on an exception). -/
def busWritesOf : Except PyErr (List BusWrite) → List BusWrite
  | .ok ws => ws
  | .error _ => []

/-- A listener entry together with the port it was rendered from: its
endpoint is name://addr:port for one of the two placeholder addresses, the
advertise string is identical, and the bootstrap_server field (when present)
carries the same addr:port. -/
def entryRenderedAt (p : Nat) (e : ListenerEntry) : Prop :=
  ∃ label addr, (addr = "*BINDING*" ∨ addr = "*ADVERTISE*")
    ∧ e.endpoint = label ++ "://" ++ addr ++ ":" ++ toString p
    ∧ e.advertise = e.endpoint
    ∧ (e.bootstrap_server = none ∨ e.bootstrap_server = some (addr ++ ":" ++ toString p))

/-- The PLAINTEXT request of the two-application reference scenario (the
example of the specification, with the plaintext_pwd key the allocator
reads). -/
def r1req : ReqDict :=
  { is_public := some false, plaintext_pwd := some "", secprot := some "PLAINTEXT",
    SASL := some [], cert := some "" }

/-- The SASL_SSL/GSSAPI request of the two-application reference scenario
(with the plaintext_pwd key the allocator reads). -/
def r2req : ReqDict :=
  { is_public := some true, plaintext_pwd := some "", secprot := some "SASL_SSL",
    SASL := some [("protocol", "GSSAPI"), ("kerberos-principal", "principal"),
                  ("kerberos-protocol", "http")], cert := some "" }

/-- The first request exactly as the claim writes it: no plaintext_pwd key. -/
def r1reqLiteral : ReqDict :=
  { is_public := some false, secprot := some "PLAINTEXT", SASL := some [],
    cert := some "" }

/-- The second request exactly as the claim writes it: no plaintext_pwd
key. -/
def r2reqLiteral : ReqDict :=
  { is_public := some true, secprot := some "SASL_SSL",
    SASL := some [("protocol", "GSSAPI"), ("kerberos-principal", "principal"),
                  ("kerberos-protocol", "http")], cert := some "" }

/-- A non-leader unit of the requesting application "test". -/
def tU0 : RUnit := { name := "test/0", app := "test", isLeader := false }

/-- The leader unit of the requesting application "test". -/
def tU1 : RUnit := { name := "test/1", app := "test", isLeader := true }

/-- The leader unit of the requesting application "connect". -/
def cU0 : RUnit := { name := "connect/0", app := "connect", isLeader := true }

/-- The provider's own (leader) unit. -/
def kU : RUnit := { name := "kafka/0", app := "kafka", isLeader := true }

/-- Relation to application "test": leader and non-leader units have
published the PLAINTEXT request. -/
def rel1 : Relation :=
  { rid := "listeners:0", units := [tU0, tU1],
    data := [(tU0, { request := some r1req }), (tU1, { request := some r1req })] }

/-- Relation to application "connect": its leader has published the
SASL_SSL/GSSAPI request. -/
def rel2 : Relation :=
  { rid := "listeners:1", units := [cU0],
    data := [(cU0, { request := some r2req })] }

/-- rel1 with the claim's literal request (no plaintext_pwd key). -/
def rel1Literal : Relation :=
  { rid := "listeners:0", units := [tU0, tU1],
    data := [(tU0, { request := some r1reqLiteral }),
             (tU1, { request := some r1reqLiteral })] }

/-- rel2 with the claim's literal request (no plaintext_pwd key). -/
def rel2Literal : Relation :=
  { rid := "listeners:1", units := [cU0],
    data := [(cU0, { request := some r2reqLiteral })] }

/-- The provider StoredState of the reference scenario (base port 9092,
trust store "test"/"test" as in the repository's unit test). -/
def pst : ProviderState :=
  { available_port := 9092, internal_pwd := "ipwd", external_pwd := "epwd",
    broker_pwd := "bpwd", ts_path := "test", ts_pwd := "test" }

/-- The listener the allocator actually assigns to application "test" in the
reference scenario. -/
def c1entryTest : ListenerEntry :=
  requesterListener "test" "*BINDING*" 9096 "PLAINTEXT" [] "" "" "test" "test" "" "" false

/-- The listener the allocator actually assigns to application "connect" in
the reference scenario. -/
def c1entryConnect : ListenerEntry :=
  requesterListener "connect" "*ADVERTISE*" 9097 "SASL_SSL"
    [("protocol", "GSSAPI"), ("kerberos-principal", "principal"),
     ("kerberos-protocol", "http")] "" "" "test" "test" "" "" false

/-- A listener-template entry carrying trust/key-store passwords, used to
exercise set_bootstrap_data. -/
def bootEntry : ListenerEntry :=
  { bootstrap_server := some "*BINDING*:9096", endpoint := "app1://*BINDING*:9096",
    advertise := "app1://*BINDING*:9096", plaintext_pwd := "pw",
    cert_present := false, sasl_present := false, secprot := "PLAINTEXT",
    SASL := [], ts_path := "/ts", ts_pwd := some "tspw", ks_path := "/ks",
    ks_pwd := some "kspw", clientauth := some false }

/-- A listener relation with no stored bootstrap-data yet. -/
def bootRel : Relation := { rid := "listeners:0", units := [tU1], data := [] }

/-- The requirer-side unit of application "the-app" (listener name
"the_app"). -/
def cliU : RUnit := { name := "the-app/0", app := "the-app", isLeader := true }

/-- The allocation entry a provider unit has published for "the_app" inside
its bootstrap-data. -/
def servedEntry : ListenerEntry :=
  { bootstrap_server := some "b.host:9096", endpoint := "the_app://b.host:9096",
    advertise := "the_app://b.host:9096", plaintext_pwd := "pw",
    cert_present := false, sasl_present := false, secprot := "PLAINTEXT",
    SASL := [], ts_path := "/ts", ts_pwd := some "tspw", ks_path := "/ks",
    ks_pwd := some "kspw", clientauth := some false }

/-- The requirer's view of the listener relation: the provider unit has
published its resolved allocation under "bootstrap-data" (the only key
set_bootstrap_data writes). -/
def cliRel : Relation :=
  { rid := "listener:0", units := [kU],
    data := [(kU, { bootstrap_data := some [("the_app", servedEntry)] })] }

/-- This zookeeper unit. -/
def zSelf : RUnit := { name := "zk/0", app := "zk", isLeader := true }

/-- The peer zookeeper unit. -/
def zOther : RUnit := { name := "zk/1", app := "zk", isLeader := false }

/-- The zookeeper peer relation of the reference scenario: the peer has
published endpoint 1.1.1.1:2182; this unit resolves to 2.2.2.2. -/
def zRel : Relation :=
  { rid := "zookeeper:0", units := [zSelf, zOther],
    data := [(zOther, { endpoint := some "1.1.1.1:2182" })] }

/-- Fold a trace of (listener name, port, entry) triples into a Python dict
by successive d[k] = v assignments. -/
def insTrace (m : List (String × ListenerEntry))
    (tr : List (String × Nat × ListenerEntry)) : List (String × ListenerEntry) :=
  tr.foldl (fun acc x => dictInsert acc x.1 x.2.2) m

/-- The leader unit of a requesting application literally named "internal",
whose derived listener name shadows the default listener of that name. -/
def iU0 : RUnit := { name := "internal/0", app := "internal", isLeader := true }

/-- Relation to the application named "internal", its leader having published
the PLAINTEXT request. -/
def relShadow : Relation :=
  { rid := "listeners:7", units := [iU0],
    data := [(iU0, { request := some r1req })] }

/-- The allocation the code returns for relShadow with defaults enabled and
base port 9092: the requester entry at port 9096 has overwritten the default
"internal" listener in place, while "external"/"broker" keep base+1 and
base+2. -/
def mShadow : ListenerMap :=
  [("internal", requesterListener "internal" "*BINDING*" 9096 "PLAINTEXT" []
      "" "" "test" "test" "" "" false),
   ("external", externalListener 9092 pst.external_pwd pst.ts_path pst.ts_pwd "" ""),
   ("broker", brokerListener 9092 pst.broker_pwd pst.ts_path pst.ts_pwd "" "")]

/-- C1 (counterexample).  In the reference scenario (leader, defaults
disabled, base port 9092, applications "test" and "connect" as in the
claim): with the claim's literal requests the allocator raises KeyError on
the absent plaintext_pwd key instead of returning a map; with the requests
completed by an empty plaintext_pwd, the returned allocation assigns "test"
the endpoint test://*BINDING*:9096 -- not port 9092 as the claim states --
and "connect" the endpoint connect://*ADVERTISE*:9097, not 9092. -/
theorem c1_counterexample :
    get_unit_listener kU [rel1Literal, rel2Literal] 9092 pst "" "" false false =
      .error (.keyError "plaintext_pwd")
  ∧ get_unit_listener kU [rel1, rel2] 9092 pst "" "" false false =
      .ok (.rjson [("test", c1entryTest), ("connect", c1entryConnect)],
           { pst with available_port := 9097 })
  ∧ c1entryTest.endpoint = "test://*BINDING*:9096"
  ∧ ¬ c1entryTest.endpoint = "test://*BINDING*:9092"
  ∧ c1entryConnect.endpoint = "connect://*ADVERTISE*:9097"
  ∧ ¬ c1entryConnect.endpoint = "connect://*ADVERTISE*:9092" := by
  refine ⟨rfl, rfl, rfl, ?_, rfl, ?_⟩ <;> decide

/-- C1 (amended).  Reference scenario with each request carrying a
plaintext_pwd key (here empty): the allocator, run on the leader with
defaults disabled and base port 9092, assigns the first application a
binding-address endpoint at port 9096 with secprot PLAINTEXT and the second
an advertise-address endpoint at port 9097 with secprot SASL_SSL and the
GSSAPI SASL block copied verbatim from its request -- the port counter
advances past the three default ports even though defaults are disabled, and
pre-increments before each assignment. -/
theorem c1_amended_allocation :
    get_unit_listener kU [rel1, rel2] 9092 pst "" "" false false =
      .ok (.rjson [("test", c1entryTest), ("connect", c1entryConnect)],
           { pst with available_port := 9097 })
  ∧ c1entryTest.endpoint = "test://*BINDING*:9096"
  ∧ c1entryTest.secprot = "PLAINTEXT"
  ∧ c1entryConnect.endpoint = "connect://*ADVERTISE*:9097"
  ∧ c1entryConnect.secprot = "SASL_SSL"
  ∧ some c1entryConnect.SASL = r2req.SASL := by
  exact ⟨rfl, rfl, rfl, rfl, rfl, rfl⟩

/-- C2.  The requirer-side setters set_plaintext_pwd, set_sasl and
set_is_public never produce a bus write, not even on the first call with a
new value: each stores the updated serialised request into state.request
before calling set_request, whose equality guard therefore always fires.
(The claim says the first call publishes and the second is a no-op; the code
publishes on neither.) -/
theorem c2_setters_never_publish :
    (∀ (selfU : RUnit) (rels : List Relation) (st : ReqState) (pwd : String),
       (set_plaintext_pwd selfU rels st pwd).2 = [])
  ∧ (∀ (selfU : RUnit) (rels : List Relation) (st : ReqState) (sasl : SaslDict),
       (set_sasl selfU rels st sasl).2 = [])
  ∧ (∀ (selfU : RUnit) (rels : List Relation) (st : ReqState) (b : Bool),
       (set_is_public selfU rels st b).2 = []) := by
  refine ⟨?_, ?_, ?_⟩
  · intro selfU rels st v
    simp only [set_plaintext_pwd]
    split
    · rfl
    · simp [set_request]
  · intro selfU rels st v
    simp only [set_sasl]
    split
    · rfl
    · simp [set_request]
  · intro selfU rels st v
    simp only [set_is_public]
    split
    · rfl
    · simp [set_request]

set_option maxRecDepth 8192 in
/-- C6.  set_bootstrap_data publishes the UNstripped allocation: on a
template whose entry carries ts_pwd "tspw" and ks_pwd "kspw", the value
written under "bootstrap-data" is the serialisation of the converted map
with both passwords still present (the stripping loop mutates a discarded
copy).  The claim that the published JSON contains no ts_pwd/ks_pwd field is
therefore false on the code. -/
theorem c6_bootstrap_data_leaks_passwords :
    set_bootstrap_data kU [bootRel] "b.host" "a.host" (some [("app1", bootEntry)]) =
      .ok [BusWrite.mk "listeners:0" "kafka/0" "bootstrap-data"
            (dumpListeners (_convert_listener_template "b.host" "a.host"
              [("app1", bootEntry)]))]
  ∧ strIn "\"ts_pwd\": \"tspw\""
      (dumpListeners (_convert_listener_template "b.host" "a.host"
        [("app1", bootEntry)])) = true
  ∧ strIn "\"ks_pwd\": \"kspw\""
      (dumpListeners (_convert_listener_template "b.host" "a.host"
        [("app1", bootEntry)])) = true
  ∧ (convertEntry "b.host" "a.host" bootEntry).ts_pwd = some "tspw"
  ∧ (convertEntry "b.host" "a.host" bootEntry).ks_pwd = some "kspw" := by
  exact ⟨rfl, by decide, by decide, rfl, rfl⟩

/-- C8.  get_bootstrap_servers guards each provider unit on the key
"bootstrap-server", but the provider's set_bootstrap_data only ever writes
the key "bootstrap-data": on a relation whose provider unit has published a
bootstrap-data map containing this application's entry, the function returns
the empty string instead of the entry's bootstrap_server endpoint (and
instead of the claimed not-ready error for an absent entry). -/
theorem c8_get_bootstrap_servers_key_mismatch :
    get_bootstrap_servers cliU [cliRel] = .ok ""
  ∧ (rdata cliRel kU).bootstrap_data = some [("the_app", servedEntry)]
  ∧ servedEntry.bootstrap_server = some "b.host:9096"
  ∧ (rdata cliRel kU).bootstrap_server = none
  ∧ (∀ (selfU : RUnit) (rels : List Relation) (bindH advH : String)
       (lst : Option ListenerMap),
       (busWritesOf (set_bootstrap_data selfU rels bindH advH lst)).all
         (fun w => w.key == "bootstrap-data") = true) := by
  refine ⟨rfl, rfl, rfl, rfl, ?_⟩
  intro selfU rels bindH advH lst
  cases lst with
  | none => rfl
  | some m =>
    simp only [set_bootstrap_data]
    split
    · rfl
    · simp only [busWritesOf, List.all_eq_true, List.mem_filterMap]
      intro w hw
      obtain ⟨r, _, hr⟩ := hw
      split at hr
      · exact absurd hr (by simp)
      · cases hr
        rfl

/-- C9.  ZookeeperProvidesRelation.on_zookeeper_relation_changed calls
self.on_zookeper_relation_joined -- an attribute that does not exist on the
class hierarchy (the defined method is on_zookeeper_relation_joined) -- so
the handler raises AttributeError on every input instead of storing the
zookeeper list; the intended composition (refresh own endpoint, then run the
parent collection) does yield the claimed "2.2.2.2:2182,1.1.1.1:2182" on the
reference scenario. -/
theorem c9_zk_changed_attribute_error :
    (∀ (selfU : RUnit) (rel : Relation) (hostname : Option String)
       (advertiseHostname : String) (port : Nat) (st : ZkState),
       zkp_on_zookeeper_relation_changed selfU rel hostname advertiseHostname
           port st =
         .error (.attributeError "on_zookeper_relation_joined"))
  ∧ zk_on_zookeeper_relation_changed zSelf
      (zkp_on_zookeeper_relation_joined zSelf zRel none "2.2.2.2" 2182).1 {} =
      .ok ({ zk_list := "2.2.2.2:2182,1.1.1.1:2182" }, none) := by
  exact ⟨fun _ _ _ _ _ _ => rfl, rfl⟩

/-- C10.  Every call of KafkaListenerRequiresRelation.set_TLS_auth forwards
six positional arguments to the three-parameter
KafkaRelationBase.set_TLS_auth and therefore ends in TypeError: no trust
store is built and the only bus writes performed are request republications
(the certificate is never published under tls_cert); on a fresh state with a
relation, the request's cert field is updated and republished before the
failure, so the operation is not atomic on error. -/
theorem c10_set_tls_auth_type_error :
    (∀ (selfU : RUnit) (rels : List Relation) (st : ReqState)
       (c tp tw : String) (u g : Option String) (m : Option Nat),
       (requirer_set_TLS_auth selfU rels st c tp tw u g m).2.2.2 =
         some (.typeError "set_TLS_auth() takes 4 positional arguments but 7 were given"))
  ∧ (∀ (selfU : RUnit) (rels : List Relation) (st : ReqState)
       (c tp tw : String) (u g : Option String) (m : Option Nat),
       (requirer_set_TLS_auth selfU rels st c tp tw u g m).2.2.1 = none)
  ∧ (∀ (selfU : RUnit) (rels : List Relation) (st : ReqState)
       (c tp tw : String) (u g : Option String) (m : Option Nat),
       ((requirer_set_TLS_auth selfU rels st c tp tw u g m).2.1).all
         (fun w => w.key == "request") = true)
  ∧ requirer_set_TLS_auth cliU [cliRel] {} "certX" "/ts" "tspw" none none none =
      ({ base := {}, is_public := false, request := { cert := some "certX" } },
       [BusWrite.mk "listener:0" "the-app/0" "request"
          (dumpsReq { cert := some "certX" })],
       none,
       some (.typeError "set_TLS_auth() takes 4 positional arguments but 7 were given")) := by
  refine ⟨?_, ?_, ?_, ?_⟩
  · intro selfU rels st c tp tw u g m
    simp [requirer_set_TLS_auth, baseSetTLSAuthParamCount]
  · intro selfU rels st c tp tw u g m
    simp [requirer_set_TLS_auth, baseSetTLSAuthParamCount]
  · intro selfU rels st c tp tw u g m
    simp only [requirer_set_TLS_auth, baseSetTLSAuthParamCount]
    norm_num
    simp only [set_request]
    split
    · simp
    · simp only [_set_request]
      split
      · simp
      · simp [List.mem_map]
  · rfl

/-- get_unit_listener's first statement overwrites available_port with the
base port, so the incoming counter value is irrelevant to the result. -/
theorem gul_available_port_irrelevant (selfU : RUnit) (rels : List Relation)
    (bp : Nat) (st : ProviderState) (p : Nat) (ks kp : String) (gd ca : Bool) :
    get_unit_listener selfU rels bp { st with available_port := p } ks kp gd ca =
      get_unit_listener selfU rels bp st ks kp gd ca := rfl

/-- get_unit_listener only ever mutates available_port: every successful run
returns the input state with some new counter value. -/
theorem gul_state_shape (selfU : RUnit) (rels : List Relation) (bp : Nat)
    (st : ProviderState) (ks kp : String) (gd ca : Bool)
    (out : UListResult) (st1 : ProviderState)
    (h : get_unit_listener selfU rels bp st ks kp gd ca = .ok (out, st1)) :
    ∃ x, st1 = { st with available_port := x } := by
  simp only [get_unit_listener] at h
  split at h
  · simp only [Except.ok.injEq, Prod.mk.injEq] at h
    exact ⟨bp, h.2.symm⟩
  · split at h
    · simp only [Except.ok.injEq, Prod.mk.injEq] at h
      exact ⟨bp, h.2.symm⟩
    · rcases he : allocRels ks kp ca st.ts_path st.ts_pwd rels
        (bp + 3, if gd = true then
          _get_default_listeners { st with available_port := bp } ks kp ca
        else []) with e | acc
      · rw [he] at h
        simp [Except.map] at h
      · rw [he] at h
        simp only [Except.map, Except.ok.injEq, Prod.mk.injEq] at h
        exact ⟨acc.1, h.2.symm⟩

/-- C5.  The allocation step converges: a second run of get_unit_listener
from the state the first run produced (same relations, same published
requests, same keystore arguments, same stored passwords and trust-store
fields) returns exactly the same result -- in particular the same serialised
allocation string -- because the port counter is reset to the base port at
the start of each run and the run changes no other state field. -/
theorem c5_allocation_convergence (selfU : RUnit) (rels : List Relation)
    (bp : Nat) (st : ProviderState) (ks kp : String) (gd ca : Bool)
    (out : UListResult) (st1 : ProviderState)
    (h : get_unit_listener selfU rels bp st ks kp gd ca = .ok (out, st1)) :
    get_unit_listener selfU rels bp st1 ks kp gd ca = .ok (out, st1) := by
  obtain ⟨x, hx⟩ := gul_state_shape selfU rels bp st ks kp gd ca out st1 h
  have h2 : get_unit_listener selfU rels bp st1 ks kp gd ca =
      get_unit_listener selfU rels bp st ks kp gd ca := by
    rw [hx]
    exact gul_available_port_irrelevant selfU rels bp st x ks kp gd ca
  rw [h2]
  exact h

/-- Witness for C5: in the two-application reference scenario the second run
reproduces the first run's result byte for byte. -/
theorem c5_allocation_convergence_witness :
    get_unit_listener kU [rel1, rel2] 9092 { pst with available_port := 9097 }
        "" "" false false =
      .ok (.rjson [("test", c1entryTest), ("connect", c1entryConnect)],
           { pst with available_port := 9097 }) :=
  c5_allocation_convergence kU [rel1, rel2] 9092 pst "" "" false false _ _ rfl

/-- Bind of a successful Except computation. -/
theorem exceptBind_ok {α β : Type} (a : α) (f : α → Except PyErr β) :
    (Except.ok a >>= f) = f a := rfl

/-- Bind of a failed Except computation. -/
theorem exceptBind_error {α β : Type} (e : PyErr) (f : α → Except PyErr β) :
    ((Except.error e : Except PyErr α) >>= f) = Except.error e := rfl

/-- Inserting under a different key leaves a lookup unchanged. -/
theorem dictGet_dictInsert_ne (m : List (String × ListenerEntry))
    (k k' : String) (v : ListenerEntry) (h : k' ≠ k) :
    dictGet (dictInsert m k' v) k = dictGet m k := by
  induction m with
  | nil => simp [dictInsert, dictGet, h]
  | cons a t ih =>
    rcases a with ⟨ak, av⟩
    simp only [dictInsert]
    by_cases hak : ak = k'
    · rw [if_pos hak]
      simp only [dictGet]
      rw [if_neg h, if_neg (by rw [hak]; exact h)]
    · rw [if_neg hak]
      simp only [dictGet]
      by_cases h2 : ak = k
      · rw [if_pos h2, if_pos h2]
      · rw [if_neg h2, if_neg h2]
        exact ih

/-- Folding a trace whose names all differ from k leaves the lookup of k
unchanged. -/
theorem dictGet_insTrace_ne (tr : List (String × Nat × ListenerEntry)) :
    ∀ (m : List (String × ListenerEntry)) (k : String),
      (∀ x ∈ tr, x.1 ≠ k) →
      dictGet (insTrace m tr) k = dictGet m k := by
  induction tr with
  | nil => intro m k _; rfl
  | cons x t ih =>
    intro m k h
    have h1 : insTrace m (x :: t) = insTrace (dictInsert m x.1 x.2.2) t := rfl
    rw [h1, ih _ k (fun y hy => h y (List.mem_cons_of_mem _ hy)),
        dictGet_dictInsert_ne m k x.1 x.2.2 (h x (List.mem_cons_self _ _))]

/-- One inner-loop step of the allocator either leaves the accumulator
unchanged (non-leader, absent or empty request) or advances the port by one
and assigns, under the application-derived name, an entry rendered at the
new port. -/
theorem allocUnit_spec (ks kp : String) (ca : Bool) (tp tw : String)
    (r : Relation) (u : RUnit) (p : Nat) (m : List (String × ListenerEntry))
    (out : Nat × ListenerMap)
    (h : allocUnit ks kp ca tp tw r u (p, m) = .ok out) :
    out = (p, m) ∨
      ∃ e, entryRenderedAt (p + 1) e
        ∧ out = (p + 1, dictInsert m (strReplace u.app "-" "_") e) := by
  simp only [allocUnit] at h
  split at h
  · left; injection h with h'; exact h'.symm
  · split at h
    · left; injection h with h'; exact h'.symm
    · rename_i req hreq
      split at h
      · left; injection h with h'; exact h'.symm
      · rcases hsp : req.secprot with _ | sp <;> rw [hsp] at h
        · simp only [keyGet, exceptBind_error] at h
          cases h
        rcases hsa : req.SASL with _ | sa <;> rw [hsa] at h
        · simp only [keyGet, exceptBind_ok, exceptBind_error] at h
          cases h
        rcases hpp : req.plaintext_pwd with _ | pp <;> rw [hpp] at h
        · simp only [keyGet, exceptBind_ok, exceptBind_error] at h
          cases h
        rcases hce : req.cert with _ | ce <;> rw [hce] at h
        · simp only [keyGet, exceptBind_ok, exceptBind_error] at h
          cases h
        simp only [keyGet, exceptBind_ok] at h
        right
        refine ⟨requesterListener (strReplace u.app "-" "_")
            (if req.is_public.getD false then "*ADVERTISE*" else "*BINDING*")
            (p + 1) sp sa pp ce tp tw ks kp ca, ?_, ?_⟩
        · refine ⟨strReplace u.app "-" "_",
            (if req.is_public.getD false then "*ADVERTISE*" else "*BINDING*"),
            ?_, rfl, rfl, Or.inr rfl⟩
          by_cases hip : req.is_public.getD false = true
          · right; rw [if_pos hip]
          · left; rw [if_neg hip]
        · injection h with h'
          exact h'.symm

/-- The unit loop of the allocator produces a trace of entries at the
consecutive ports following the incoming counter, each rendered at its own
port and named after some processed unit's application. -/
theorem allocUnits_spec (ks kp : String) (ca : Bool) (tp tw : String)
    (r : Relation) :
    ∀ (us : List RUnit) (p : Nat) (m : List (String × ListenerEntry))
      (p' : Nat) (m' : ListenerMap),
      allocUnits ks kp ca tp tw r us (p, m) = .ok (p', m') →
      ∃ tr : List (String × Nat × ListenerEntry),
        m' = insTrace m tr
        ∧ tr.map (fun x => x.2.1) = List.range' (p + 1) tr.length
        ∧ p' = p + tr.length
        ∧ (∀ x ∈ tr, entryRenderedAt x.2.1 x.2.2)
        ∧ (∀ x ∈ tr, ∃ u ∈ us, x.1 = strReplace u.app "-" "_") := by
  intro us
  induction us with
  | nil =>
    intro p m p' m' h
    simp only [allocUnits, Except.ok.injEq, Prod.mk.injEq] at h
    obtain ⟨rfl, rfl⟩ := h
    exact ⟨[], rfl, by simp, by simp, by simp, by simp⟩
  | cons u us ih =>
    intro p m p' m' h
    simp only [allocUnits] at h
    rcases hu : allocUnit ks kp ca tp tw r u (p, m) with e | acc0
    · rw [hu] at h
      simp only [exceptBind_error] at h
      cases h
    · rw [hu] at h
      simp only [exceptBind_ok] at h
      obtain ⟨p0, m0⟩ := acc0
      rcases allocUnit_spec ks kp ca tp tw r u p m (p0, m0) hu with heq | ⟨e, hrend, heq⟩
      · simp only [Prod.mk.injEq] at heq
        obtain ⟨rfl, rfl⟩ := heq
        obtain ⟨tr, h1, h2, h3, h4, h5⟩ := ih _ _ p' m' h
        exact ⟨tr, h1, h2, h3, h4,
          fun x hx => (h5 x hx).elim
            (fun u' hu' => ⟨u', List.mem_cons_of_mem _ hu'.1, hu'.2⟩)⟩
      · simp only [Prod.mk.injEq] at heq
        obtain ⟨rfl, rfl⟩ := heq
        obtain ⟨tr', h1, h2, h3, h4, h5⟩ := ih (p + 1)
          (dictInsert m (strReplace u.app "-" "_") e) p' m' h
        refine ⟨(strReplace u.app "-" "_", p + 1, e) :: tr', h1, ?_, ?_, ?_, ?_⟩
        · simp only [List.map_cons, List.length_cons, h2, List.range'_succ]
        · simp only [List.length_cons]
          omega
        · intro x hx
          rcases List.mem_cons.mp hx with hx | hx
          · subst hx
            exact hrend
          · exact h4 x hx
        · intro x hx
          rcases List.mem_cons.mp hx with hx | hx
          · subst hx
            exact ⟨u, List.mem_cons_self _ _, rfl⟩
          · obtain ⟨u', hu', hn⟩ := h5 x hx
            exact ⟨u', List.mem_cons_of_mem _ hu', hn⟩

/-- The relation loop of the allocator: the traces of the individual
relations concatenate, covering the consecutive ports after the incoming
counter. -/
theorem allocRels_spec (ks kp : String) (ca : Bool) (tp tw : String) :
    ∀ (rs : List Relation) (p : Nat) (m : List (String × ListenerEntry))
      (p' : Nat) (m' : ListenerMap),
      allocRels ks kp ca tp tw rs (p, m) = .ok (p', m') →
      ∃ tr : List (String × Nat × ListenerEntry),
        m' = insTrace m tr
        ∧ tr.map (fun x => x.2.1) = List.range' (p + 1) tr.length
        ∧ p' = p + tr.length
        ∧ (∀ x ∈ tr, entryRenderedAt x.2.1 x.2.2)
        ∧ (∀ x ∈ tr, ∃ rl ∈ rs, ∃ u ∈ rl.units, x.1 = strReplace u.app "-" "_") := by
  intro rs
  induction rs with
  | nil =>
    intro p m p' m' h
    simp only [allocRels, Except.ok.injEq, Prod.mk.injEq] at h
    obtain ⟨rfl, rfl⟩ := h
    exact ⟨[], rfl, by simp, by simp, by simp, by simp⟩
  | cons rl rs ih =>
    intro p m p' m' h
    simp only [allocRels] at h
    rcases hu : allocUnits ks kp ca tp tw rl rl.units (p, m) with e | acc0
    · rw [hu] at h
      simp only [exceptBind_error] at h
      cases h
    · rw [hu] at h
      simp only [exceptBind_ok] at h
      obtain ⟨p0, m0⟩ := acc0
      obtain ⟨tr1, hm1, hports1, hp1, hrend1, hnames1⟩ :=
        allocUnits_spec ks kp ca tp tw rl rl.units p m p0 m0 hu
      subst hp1
      obtain ⟨tr2, hm2, hports2, hp2, hrend2, hnames2⟩ := ih _ m0 p' m' h
      refine ⟨tr1 ++ tr2, ?_, ?_, ?_, ?_, ?_⟩
      · rw [hm2, hm1]
        simp [insTrace, List.foldl_append]
      · rw [List.map_append, hports1, hports2, List.length_append]
        rw [show p + tr1.length + 1 = p + 1 + tr1.length from by omega]
        rw [List.range'_append_1]
        congr 1
        omega
      · rw [List.length_append]
        omega
      · intro x hx
        rcases List.mem_append.mp hx with hx | hx
        · exact hrend1 x hx
        · exact hrend2 x hx
      · intro x hx
        rcases List.mem_append.mp hx with hx | hx
        · obtain ⟨u', hu', hn⟩ := hnames1 x hx
          exact ⟨rl, List.mem_cons_self _ _, u', hu', hn⟩
        · obtain ⟨rl', hrl', u', hu', hn⟩ := hnames2 x hx
          exact ⟨rl', List.mem_cons_of_mem _ hrl', u', hu', hn⟩

set_option maxRecDepth 8192 in
/-- C4 (counterexample).  The defaults-at-base-ports clause fails on a
requesting application literally named "internal": with defaults enabled and
base port 9092, its request overwrites the default "internal" entry in place
(line 356), so the map's "internal" listener is the requester entry at port
9096 -- not the default listener at the base port as the claim states for
any set of relations and requests.  (The assigned ports 9096, 9093, 9094 are
still pairwise distinct.) -/
theorem c4_counterexample :
    get_unit_listener kU [relShadow] 9092 pst "" "" true false =
      .ok (.rjson mShadow, { pst with available_port := 9096 })
  ∧ dictGet mShadow "internal" =
      some (requesterListener "internal" "*BINDING*" 9096 "PLAINTEXT" []
        "" "" "test" "test" "" "" false)
  ∧ (requesterListener "internal" "*BINDING*" 9096 "PLAINTEXT" []
        "" "" "test" "test" "" "" false).endpoint = "internal://*BINDING*:9096"
  ∧ ¬ dictGet mShadow "internal" =
      some (internalListener 9092 pst.internal_pwd pst.ts_path pst.ts_pwd "" "")
  ∧ (internalListener 9092 pst.internal_pwd pst.ts_path pst.ts_pwd "" "").endpoint =
      "INTERNAL://*BINDING*:9092" := by
  refine ⟨rfl, rfl, rfl, ?_, rfl⟩
  decide

/-- C4 (amended).  Port uniqueness of the allocation: on the leader, for any
relations and requests, every successful run of get_unit_listener returns a
map that is the dict-fold of a trace of (name, port, entry) triples whose
ports are pairwise distinct, each entry rendered (endpoint, advertise and
bootstrap_server fields) at its own port; with defaults enabled the three
default listeners internal/external/broker sit at base port, base+1 and
base+2 PROVIDED no requesting application's derived listener name equals one
of those three names (a shadowing requester overwrites the default entry in
place with its own, higher port -- see the counterexample). -/
theorem c4_port_uniqueness (selfU : RUnit) (rels : List Relation) (bp : Nat)
    (st : ProviderState) (ks kp : String) (gd ca : Bool) (r : UListResult)
    (out : ProviderState)
    (hleader : selfU.isLeader = true)
    (h : get_unit_listener selfU rels bp st ks kp gd ca = .ok (r, out)) :
    ∃ tr : List (String × Nat × ListenerEntry),
      r.toMap = insTrace [] tr
      ∧ (tr.map (fun x => x.2.1)).Nodup
      ∧ (∀ x ∈ tr, entryRenderedAt x.2.1 x.2.2)
      ∧ (gd = true →
           (∀ rl ∈ rels, ∀ u ∈ rl.units, strReplace u.app "-" "_" ∉
             (["internal", "external", "broker"] : List String)) →
           dictGet r.toMap "internal" =
             some (internalListener bp st.internal_pwd st.ts_path st.ts_pwd ks kp)
         ∧ dictGet r.toMap "external" =
             some (externalListener bp st.external_pwd st.ts_path st.ts_pwd ks kp)
         ∧ dictGet r.toMap "broker" =
             some (brokerListener bp st.broker_pwd st.ts_path st.ts_pwd ks kp)) := by
  cases hgd : gd with
  | true =>
    simp only [get_unit_listener, hleader, Bool.not_true, Bool.false_eq_true,
      if_false, hgd, if_true] at h
    split at h
    · simp only [Except.ok.injEq, Prod.mk.injEq] at h
      obtain ⟨hr, hout⟩ := h
      subst hr
      refine ⟨[("internal", bp, internalListener bp st.internal_pwd st.ts_path
            st.ts_pwd ks kp),
          ("external", bp + 1, externalListener bp st.external_pwd st.ts_path
            st.ts_pwd ks kp),
          ("broker", bp + 2, brokerListener bp st.broker_pwd st.ts_path
            st.ts_pwd ks kp)], rfl, ?_, ?_, ?_⟩
      · simp only [List.map_cons, List.map_nil]
        have h3 : ([bp, bp + 1, bp + 2] : List Nat).Nodup := by
          simp only [List.nodup_cons, List.mem_cons, List.mem_singleton,
            List.not_mem_nil, List.nodup_nil, or_false, not_or, not_false_iff,
            and_true]
          omega
        exact h3
      · intro x hx
        rcases List.mem_cons.mp hx with hx | hx
        · subst hx
          exact ⟨"INTERNAL", "*BINDING*", Or.inl rfl, rfl, rfl, Or.inl rfl⟩
        rcases List.mem_cons.mp hx with hx | hx
        · subst hx
          exact ⟨"EXTERNAL", "*ADVERTISE*", Or.inr rfl, rfl, rfl, Or.inl rfl⟩
        rcases List.mem_cons.mp hx with hx | hx
        · subst hx
          exact ⟨"BROKER", "*BINDING*", Or.inl rfl, rfl, rfl, Or.inl rfl⟩
        · cases hx
      · intro _ _
        exact ⟨rfl, rfl, rfl⟩
    · rcases he : allocRels ks kp ca st.ts_path st.ts_pwd rels
        (bp + 3, _get_default_listeners { st with available_port := bp } ks kp ca)
        with e | acc
      · rw [he] at h
        simp [Except.map] at h
      · rw [he] at h
        simp only [Except.map, Except.ok.injEq, Prod.mk.injEq] at h
        obtain ⟨hr, hout⟩ := h
        subst hr
        obtain ⟨p2, m2⟩ := acc
        obtain ⟨tr2, hm, hports, hp, hrend, hnames⟩ :=
          allocRels_spec ks kp ca st.ts_path st.ts_pwd rels (bp + 3)
            (_get_default_listeners { st with available_port := bp } ks kp ca)
            p2 m2 he
        refine ⟨("internal", bp, internalListener bp st.internal_pwd st.ts_path
              st.ts_pwd ks kp) ::
            ("external", bp + 1, externalListener bp st.external_pwd st.ts_path
              st.ts_pwd ks kp) ::
            ("broker", bp + 2, brokerListener bp st.broker_pwd st.ts_path
              st.ts_pwd ks kp) :: tr2, ?_, ?_, ?_, ?_⟩
        · show m2 = insTrace [] (_ :: _ :: _ :: tr2)
          rw [hm]
          rfl
        · simp only [List.map_cons, hports]
          rw [List.nodup_cons, List.nodup_cons, List.nodup_cons]
          refine ⟨?_, ?_, ?_, List.nodup_range' _ _⟩
          · simp only [List.mem_cons, List.mem_range'_1]
            push_neg
            refine ⟨by omega, by omega, by omega⟩
          · simp only [List.mem_cons, List.mem_range'_1]
            push_neg
            refine ⟨by omega, by omega⟩
          · simp only [List.mem_range'_1]
            push_neg
            intro hle
            omega
        · intro x hx
          rcases List.mem_cons.mp hx with hx | hx
          · subst hx
            exact ⟨"INTERNAL", "*BINDING*", Or.inl rfl, rfl, rfl, Or.inl rfl⟩
          rcases List.mem_cons.mp hx with hx | hx
          · subst hx
            exact ⟨"EXTERNAL", "*ADVERTISE*", Or.inr rfl, rfl, rfl, Or.inl rfl⟩
          rcases List.mem_cons.mp hx with hx | hx
          · subst hx
            exact ⟨"BROKER", "*BINDING*", Or.inl rfl, rfl, rfl, Or.inl rfl⟩
          · exact hrend x hx
        · intro _ hshadow
          have hfresh : ∀ x ∈ tr2, ∀ k ∈ (["internal", "external", "broker"] :
              List String), x.1 ≠ k := by
            intro x hx k hk
            obtain ⟨rl, hrl, u, hu, hn⟩ := hnames x hx
            intro hck
            exact hshadow rl hrl u hu (by rw [← hn, hck]; exact hk)
          have hget : ∀ k ∈ (["internal", "external", "broker"] : List String),
              dictGet m2 k =
                dictGet (_get_default_listeners { st with available_port := bp }
                  ks kp ca) k := by
            intro k hk
            rw [hm]
            exact dictGet_insTrace_ne tr2 _ k (fun x hx => hfresh x hx k hk)
          refine ⟨?_, ?_, ?_⟩
          · rw [UListResult.toMap, hget "internal" (by simp)]
            rfl
          · rw [UListResult.toMap, hget "external" (by simp)]
            rfl
          · rw [UListResult.toMap, hget "broker" (by simp)]
            rfl
  | false =>
    simp only [get_unit_listener, hleader, Bool.not_true, Bool.false_eq_true,
      if_false, hgd] at h
    split at h
    · simp only [Except.ok.injEq, Prod.mk.injEq] at h
      obtain ⟨hr, hout⟩ := h
      subst hr
      refine ⟨[], rfl, by simp, by simp, ?_⟩
      intro hgd'
      cases hgd'
    · rcases he : allocRels ks kp ca st.ts_path st.ts_pwd rels
        (bp + 3, ([] : List (String × ListenerEntry))) with e | acc
      · rw [he] at h
        simp [Except.map] at h
      · rw [he] at h
        simp only [Except.map, Except.ok.injEq, Prod.mk.injEq] at h
        obtain ⟨hr, hout⟩ := h
        subst hr
        obtain ⟨p2, m2⟩ := acc
        obtain ⟨tr2, hm, hports, hp, hrend, hnames⟩ :=
          allocRels_spec ks kp ca st.ts_path st.ts_pwd rels (bp + 3)
            [] p2 m2 he
        refine ⟨tr2, hm, ?_, hrend, ?_⟩
        · rw [hports]
          exact List.nodup_range' _ _
        · intro hgd'
          cases hgd'

set_option maxRecDepth 8192 in
/-- Witness for C4 (amended): the two-application reference scenario with
defaults enabled satisfies the port-uniqueness statement, including the
defaults-at-base clause since neither requester name shadows a default. -/
theorem c4_port_uniqueness_witness :
    ∃ r out,
      get_unit_listener kU [rel1, rel2] 9092 pst "" "" true true = .ok (r, out)
      ∧ ∃ tr : List (String × Nat × ListenerEntry),
          r.toMap = insTrace [] tr
          ∧ (tr.map (fun x => x.2.1)).Nodup
          ∧ (∀ x ∈ tr, entryRenderedAt x.2.1 x.2.2)
          ∧ (true = true →
               (∀ rl ∈ ([rel1, rel2] : List Relation), ∀ u ∈ rl.units,
                 strReplace u.app "-" "_" ∉
                   (["internal", "external", "broker"] : List String)) →
               dictGet r.toMap "internal" =
                 some (internalListener 9092 pst.internal_pwd pst.ts_path
                   pst.ts_pwd "" "")
             ∧ dictGet r.toMap "external" =
                 some (externalListener 9092 pst.external_pwd pst.ts_path
                   pst.ts_pwd "" "")
             ∧ dictGet r.toMap "broker" =
                 some (brokerListener 9092 pst.broker_pwd pst.ts_path
                   pst.ts_pwd "" "")) :=
  ⟨_, _, rfl, c4_port_uniqueness kU [rel1, rel2] 9092 pst "" "" true true _ _
    rfl rfl⟩
